import Mathlib

/-!
Verification of the turn resolver (Game Engine) of the Equilibrium card game.

The definitions below are a shallow embedding of
`src/src/features/gameplay/GameEngine.ts` together with the domain records it
operates on.  JS `number` values are embedded as `ℚ` (all values the game
manipulates are exact decimals), timestamps (`Date`) as `ℤ` epoch instants
supplied by the caller, and JS arrays as `List`.
-/

/-- The `HomeostaticSystem` enum from `core/domain/biomarker.model` (in the repo as
`src/unnamed/part_001`): the closed set of regulated systems. -/
inductive HomeostaticSystem where
  | glucose
  | ph
  | temperature
deriving DecidableEq

/-- The `trend` field's closed set of values, `'stable' | 'increasing' | 'decreasing'`. -/
inductive Trend where
  | stable
  | increasing
  | decreasing
deriving DecidableEq

/-- The `Biomarker` interface from `core/domain/biomarker.model`
(`src/unnamed/part_001`): one regulated physiological quantity.
`normalRange` and `criticalRange` are the `[low, high]` tuples. -/
structure Biomarker where
  system : HomeostaticSystem
  name : String
  currentValue : ℚ
  normalRange : ℚ × ℚ
  criticalRange : ℚ × ℚ
  unit : String
  isCritical : Bool
  trend : Trend
  lastUpdate : ℤ
deriving DecidableEq

/-- The `HomeostaticState` interface from `core/domain/biomarker.model`
(`src/unnamed/part_001`): a fixed record of exactly three biomarkers. -/
structure HomeostaticState where
  glucose : Biomarker
  ph : Biomarker
  temperature : Biomarker
deriving DecidableEq

/-- The `BiomarkerHistory` interface from `core/domain/biomarker.model`
(`src/unnamed/part_001`): the audit record of one effect application. -/
structure BiomarkerHistory where
  timestamp : ℤ
  system : HomeostaticSystem
  oldValue : ℚ
  newValue : ℚ
  change : ℚ
  reason : String
deriving DecidableEq

/-- The `CardType` enum of `card.model.ts` (its content is staged inside
`src/src/core/domain/biomarker.model.test.ts`, lines 340-383, after a document
separator): `ACTION = 'ACAO'`, `EVENT = 'EVENTO'` (the string values are
identity tags). -/
inductive CardType where
  | ACTION
  | EVENT
deriving DecidableEq

/-- The `CardRarity` enum of `card.model.ts` (staged in
`biomarker.model.test.ts` lines 340-383): COMMON, RARE, EPIC, LEGENDARY. -/
inductive CardRarity where
  | COMMON
  | RARE
  | EPIC
  | LEGENDARY
deriving DecidableEq

/-- The effect-kind union `'INSTANT' | 'CONTINUOUS' | 'CONDITIONAL'` of
`CardEffect.type` in `card.model.ts` (staged in `biomarker.model.test.ts`
lines 340-383). -/
inductive EffectType where
  | INSTANT
  | CONTINUOUS
  | CONDITIONAL
deriving DecidableEq

/-- The `CardEffect` interface of `card.model.ts` (staged in
`src/src/core/domain/biomarker.model.test.ts`, lines 340-383, after a
document separator).  In the source `targetSystem` is typed `string` with the
comment `'glucose', 'ph', 'temperature'`; the engine indexes
`currentState[targetSystem]` with it, so any other string hits an undefined
lookup and `processTurn` throws — spec section 7 classifies that as an
unguarded content-validation defect to be caught before the resolver runs.
The embedding therefore takes the valid-target precondition as part of the
type and uses the closed key enum; it models only the defined (non-throwing)
domain of the resolver.  Optional `duration` (meaningful for CONTINUOUS
effects only) and optional `condition` are carried but never read by the
resolver's numeric logic. -/
structure CardEffect where
  targetSystem : HomeostaticSystem
  value : ℚ
  duration : Option ℚ
  type : EffectType
  condition : Option String
deriving DecidableEq

/-- The `Card` interface of `card.model.ts` (staged in
`src/src/core/domain/biomarker.model.test.ts`, lines 340-383, after a
document separator): `id`, `name`, `type`, `description`, `imageUrl`, ordered
`effects`, `cost` (a JS number; spec section 3 fixes it as a non-negative
integer), `rarity`, and the optional flavour/educational notes.  The resolver
reads only `id`, `name` and `effects`. -/
structure Card where
  id : String
  name : String
  type : CardType
  description : String
  imageUrl : String
  effects : List CardEffect
  cost : ℕ
  rarity : CardRarity
  flavorText : Option String
  educationalNote : Option String
deriving DecidableEq

/-- The `GameStatus` enum of `game.model.ts` (its content is staged inside
`src/src/core/domain/biomarker.model.test.ts`, lines 383-436, after a
document separator): LOBBY, IN_PROGRESS (= 'EM_JOGO'), VICTORY (= 'VITORIA'),
DEFEAT (= 'DERROTA'), PAUSED; the string values are identity tags. -/
inductive GameStatus where
  | LOBBY
  | IN_PROGRESS
  | VICTORY
  | DEFEAT
  | PAUSED
deriving DecidableEq

/-- The `EventType` enum of `game.model.ts` (staged in
`biomarker.model.test.ts` lines 383-436): RANDOM, SCHEDULED, TRIGGERED. -/
inductive EventType where
  | RANDOM
  | SCHEDULED
  | TRIGGERED
deriving DecidableEq

/-- The severity union `'mild' | 'moderate' | 'severe' | 'critical'` of
`GameEvent.severity` in `game.model.ts` (staged in `biomarker.model.test.ts`
lines 383-436). -/
inductive EventSeverity where
  | mild
  | moderate
  | severe
  | critical
deriving DecidableEq

/-- One entry of `GameEvent.effects` in `game.model.ts` (staged in
`biomarker.model.test.ts` lines 383-436): an inline
`{ system: string; value: number; duration: number }` record.  `system` stays
a plain string here, as in the source (events are never applied by the
resolver, so no lookup precondition arises). -/
structure GameEventEffect where
  system : String
  value : ℚ
  duration : ℚ
deriving DecidableEq

/-- The `GameEvent` interface of `game.model.ts` (staged in
`src/src/core/domain/biomarker.model.test.ts`, lines 383-436, after a
document separator). -/
structure GameEvent where
  id : String
  title : String
  description : String
  type : EventType
  effects : List GameEventEffect
  severity : EventSeverity
  icon : Option String
deriving DecidableEq

/-- The difficulty union `'easy' | 'medium' | 'hard'` of
`GameSession.difficulty` in `game.model.ts` (staged in
`biomarker.model.test.ts` lines 383-436). -/
inductive GameDifficulty where
  | easy
  | medium
  | hard
deriving DecidableEq

/-- The `GameSession` interface of `game.model.ts` (staged in
`src/src/core/domain/biomarker.model.test.ts`, lines 383-436, after a
document separator): the aggregate root.  `score` is a JS number (embedded as
ℚ); `turnCount` is the turn counter (spec section 3: a monotonically
non-decreasing integer, embedded as ℕ); `startTime`/`lastSave` are `Date`
values, embedded as ℤ epoch instants. -/
structure GameSession where
  id : String
  playerId : String
  status : GameStatus
  currentState : HomeostaticState
  hand : List Card
  deck : List Card
  discardPile : List Card
  currentEvent : Option GameEvent
  score : ℚ
  turnCount : ℕ
  startTime : ℤ
  lastSave : ℤ
  difficulty : GameDifficulty
deriving DecidableEq

/-- Field access `session.currentState[systemKey]` of the `HomeostaticState`
record, keyed by the system enum. -/
def HomeostaticState.get (st : HomeostaticState) : HomeostaticSystem → Biomarker
  | .glucose => st.glucose
  | .ph => st.ph
  | .temperature => st.temperature

/-- Field assignment `state[systemKey] = b` of the `HomeostaticState` record. -/
def HomeostaticState.set (st : HomeostaticState) : HomeostaticSystem → Biomarker → HomeostaticState
  | .glucose, b => { st with glucose := b }
  | .ph, b => { st with ph := b }
  | .temperature, b => { st with temperature := b }

/-- The list `Object.values(session.currentState)`: the three biomarkers in the
record's key order (glucose, ph, temperature). -/
def systemsList (st : HomeostaticState) : List Biomarker :=
  [st.glucose, st.ph, st.temperature]

/-- Function `GameEngine.isCritical` (GameEngine.ts lines 106-111): the value is
critical iff it lies strictly outside `criticalRange`. -/
def isCriticalValue (biomarker : Biomarker) (value : ℚ) : Bool :=
  decide (value < biomarker.criticalRange.1) || decide (value > biomarker.criticalRange.2)

/-- Function `GameEngine.calculateTrend` (GameEngine.ts lines 113-117): stable when the
delta's magnitude is below 0.1, else the sign decides. -/
def calculateTrend (oldValue newValue : ℚ) : Trend :=
  let diff := newValue - oldValue
  if |diff| < 1/10 then Trend.stable
  else if diff > 0 then Trend.increasing else Trend.decreasing

/-- One iteration of the `playedCard.effects.forEach` loop of `processTurn`
(GameEngine.ts lines 24-45): adds `effect.value` to the target biomarker,
recomputes `isCritical` and `trend`, stamps `lastUpdate` with the current
instant `now` (`new Date()`), and emits the `BiomarkerHistory` record. -/
def applyEffect (st : HomeostaticState) (effect : CardEffect) (cardName : String) (now : ℤ) :
    HomeostaticState × BiomarkerHistory :=
  let b := st.get effect.targetSystem
  let oldValue := b.currentValue
  let newValue := oldValue + effect.value
  let b' : Biomarker :=
    { b with
      currentValue := newValue
      isCritical := isCriticalValue b newValue
      trend := calculateTrend oldValue newValue
      lastUpdate := now }
  (st.set effect.targetSystem b',
   { timestamp := now
     system := effect.targetSystem
     oldValue := oldValue
     newValue := newValue
     change := effect.value
     reason := "Card played: " ++ cardName })

/-- The whole `effects.forEach` loop: applies the effects in list order,
threading the state and accumulating the history entries in order. -/
def applyEffects (st : HomeostaticState) (effects : List CardEffect) (cardName : String)
    (now : ℤ) : HomeostaticState × List BiomarkerHistory :=
  match effects with
  | [] => (st, [])
  | e :: rest =>
    let step := applyEffect st e cardName now
    let tail := applyEffects step.1 rest cardName now
    (tail.1, step.2 :: tail.2)

/-- Test `!system.isCritical && currentValue >= normalRange[0] && currentValue <= normalRange[1]`:
the per-biomarker stability test of `checkGameEnd` (GameEngine.ts lines 127-131). -/
def stableBio (b : Biomarker) : Bool :=
  !b.isCritical && decide (b.normalRange.1 ≤ b.currentValue)
    && decide (b.currentValue ≤ b.normalRange.2)

/-- Function `GameEngine.checkGameEnd` (GameEngine.ts lines 119-140): DEFEAT when at
least two biomarkers carry the `isCritical` flag; else VICTORY when every
biomarker is non-critical, inside `normalRange`, and `turnCount > 5`; else
IN_PROGRESS. -/
def checkGameEnd (session : GameSession) : GameStatus :=
  let systems := systemsList session.currentState
  let criticalSystems := systems.filter (fun b => b.isCritical)
  if 2 ≤ criticalSystems.length then GameStatus.DEFEAT
  else if systems.all stableBio && decide (5 < session.turnCount) then GameStatus.VICTORY
  else GameStatus.IN_PROGRESS

/-- Result record of `processTurn`.  Besides the returned `{ newSession,
history }`, the field `inputAfter` records the observable values of the
*input* session object once the call returns.  In the source, `let newSession
= { ...session }` (line 20) is a shallow copy: `newSession.currentState` and
`session.currentState` are the same object, and the effect loop assigns
`newSession.currentState[systemKey] = { ... }` (line 29) into that shared
object, so the caller's session sees the fully updated biomarkers.  The
`hand`/`discardPile`/`status`/`turnCount` writes reassign properties of the
copy only, so those input fields keep their original values. -/
structure TurnOutcome where
  newSession : GameSession
  history : List BiomarkerHistory
  inputAfter : GameSession
deriving DecidableEq

/-- Function `GameEngine.processTurn` (GameEngine.ts lines 16-58): applies the card's
effects in order, removes every hand card whose `id` equals the played card's
`id`, appends the played card to the discard pile, recomputes `status` via
`checkGameEnd` (with the turn count still un-incremented), and then increments
`turnCount`.  `now` stands for the `new Date()` instants taken during the
call.  `inputAfter` is the input object after the call (see `TurnOutcome`). -/
def processTurn (session : GameSession) (playedCard : Card) (now : ℤ) : TurnOutcome :=
  let applied := applyEffects session.currentState playedCard.effects playedCard.name now
  let afterPiles : GameSession :=
    { session with
      currentState := applied.1
      hand := session.hand.filter (fun card => card.id ≠ playedCard.id)
      discardPile := session.discardPile ++ [playedCard] }
  let newSession : GameSession :=
    { afterPiles with
      status := checkGameEnd afterPiles
      turnCount := afterPiles.turnCount + 1 }
  { newSession := newSession
    history := applied.2
    inputAfter := { session with currentState := applied.1 } }

/-- Function `GameEngine.drawCard` (GameEngine.ts lines 142-160): when the deck is
empty the whole discard pile becomes the deck in its accumulation order and
the discard pile is emptied; if the deck is still empty the session is
returned with a null card; otherwise the first deck card moves to the end of
the hand.  `drawCard` performs no write into any object shared with the input
(it only reassigns properties of the shallow copy), so the input is unchanged
and no `inputAfter` field is needed. -/
def drawCard (session : GameSession) : GameSession × Option Card :=
  let session1 :=
    if session.deck.length = 0 then
      { session with deck := session.discardPile, discardPile := [] }
    else session
  match session1.deck with
  | [] => (session1, none)
  | drawnCard :: rest =>
    ({ session1 with deck := rest, hand := session1.hand ++ [drawnCard] }, some drawnCard)

/-- Function `GameEngine.getScore` (GameEngine.ts lines 162-171):
`max(0, 1000 − 10·turnCount − 50·criticalCount + 100·stableCount)`. -/
def getScore (session : GameSession) : ℤ :=
  let baseScore : ℤ := 1000
  let turnPenalty : ℤ := (session.turnCount : ℤ) * 10
  let criticalPenalty : ℤ :=
    (((systemsList session.currentState).filter (fun s => s.isCritical)).length : ℤ) * 50
  let stabilityBonus : ℤ :=
    (((systemsList session.currentState).filter (fun s =>
      decide (s.normalRange.1 ≤ s.currentValue) && decide (s.currentValue ≤ s.normalRange.2))).length : ℤ) * 100
  max 0 (baseScore - turnPenalty - criticalPenalty + stabilityBonus)

/-- Number of biomarkers carrying the `isCritical` flag, as counted by
`checkGameEnd` and `getScore`. -/
def criticalCount (st : HomeostaticState) : ℕ :=
  ((systemsList st).filter (fun b => b.isCritical)).length

/-- Number of biomarkers whose value lies inside `normalRange` (inclusive),
as counted by `getScore`'s stability bonus. -/
def stableCount (st : HomeostaticState) : ℕ :=
  ((systemsList st).filter (fun b =>
    decide (b.normalRange.1 ≤ b.currentValue) && decide (b.currentValue ≤ b.normalRange.2))).length

/-- The physiological state after all of a card's effects, as computed inside
`processTurn`. -/
def postState (session : GameSession) (playedCard : Card) (now : ℤ) : HomeostaticState :=
  (applyEffects session.currentState playedCard.effects playedCard.name now).1

/-- Total number of cards held across the three piles of a session. -/
def totalCards (s : GameSession) : ℕ :=
  s.hand.length + s.deck.length + s.discardPile.length

/-- The multiset union of the three card piles of a session. -/
def cardMultiset (s : GameSession) : Multiset Card :=
  (s.hand : Multiset Card) + (s.deck : Multiset Card) + (s.discardPile : Multiset Card)

/-! ### Concrete sample data

Sample biomarkers follow the seeded content of the repository (Scenario A of
the spec and the `HomeostaticState` literals in the model test and `App.tsx`):
glucose 90 mg/dL with normal range [70, 110] and critical range [50, 140],
blood pH 7.4 with normal range [7.35, 7.45] and critical range [7.2, 7.6],
temperature 37.0 °C with normal range [36.5, 37.5] and critical range
[35, 40]. -/

def glucoseNormal : Biomarker :=
  { system := .glucose, name := "Glicose", currentValue := 90,
    normalRange := (70, 110), criticalRange := (50, 140), unit := "mg/dL",
    isCritical := false, trend := .stable, lastUpdate := 0 }

def phNormal : Biomarker :=
  { system := .ph, name := "pH", currentValue := 7.4,
    normalRange := (7.35, 7.45), criticalRange := (7.2, 7.6), unit := "pH",
    isCritical := false, trend := .stable, lastUpdate := 0 }

def tempNormal : Biomarker :=
  { system := .temperature, name := "Temperatura", currentValue := 37,
    normalRange := (36.5, 37.5), criticalRange := (35, 40), unit := "C",
    isCritical := false, trend := .stable, lastUpdate := 0 }

/-- All-normal physiological state used by the concrete scenarios. -/
def stateNormal : HomeostaticState :=
  { glucose := glucoseNormal, ph := phNormal, temperature := tempNormal }

/-- A card that subtracts 10 from glucose (Scenario A). -/
def insulinCard : Card :=
  { id := "c-insulin", name := "Insulina", type := .ACTION,
    description := "reduz glicose", imageUrl := "", cost := 1, rarity := .COMMON,
    flavorText := none, educationalNote := none,
    effects := [{ targetSystem := .glucose, value := -10, duration := some 1, type := .INSTANT, condition := none }] }

/-- A neutral card: its single effect keeps glucose inside the normal range. -/
def neutralCard : Card :=
  { id := "c-neutral", name := "Hidratacao", type := .ACTION,
    description := "efeito leve", imageUrl := "", cost := 0, rarity := .COMMON,
    flavorText := none, educationalNote := none,
    effects := [{ targetSystem := .glucose, value := 5, duration := none, type := .INSTANT, condition := none }] }

/-- A card whose first two effects drive glucose and pH critical and whose
last two effects bring both back to their starting values. -/
def comboCard : Card :=
  { id := "c-combo", name := "Choque e Resgate", type := .ACTION,
    description := "excursao transitoria", imageUrl := "", cost := 2,
    rarity := .RARE, flavorText := none, educationalNote := none,
    effects :=
      [{ targetSystem := .glucose, value := -50, duration := none, type := .INSTANT, condition := none },
       { targetSystem := .ph, value := -0.25, duration := none, type := .INSTANT, condition := none },
       { targetSystem := .glucose, value := 50, duration := none, type := .INSTANT, condition := none },
       { targetSystem := .ph, value := 0.25, duration := none, type := .INSTANT, condition := none }] }

def cardX : Card :=
  { id := "c-x", name := "Carta X", type := .ACTION, description := "",
    imageUrl := "", effects := [], cost := 0, rarity := .COMMON,
    flavorText := none, educationalNote := none }

def cardY : Card :=
  { id := "c-y", name := "Carta Y", type := .ACTION, description := "",
    imageUrl := "", effects := [], cost := 0, rarity := .COMMON,
    flavorText := none, educationalNote := none }

/-- Two distinct cards sharing one `id`. -/
def dupCardA : Card :=
  { id := "c-dup", name := "Duplicata A", type := .ACTION, description := "",
    imageUrl := "", effects := [], cost := 0, rarity := .COMMON,
    flavorText := none, educationalNote := none }

/-- Second card with the same `id` as `dupCardA` but a different name. -/
def dupCardB : Card :=
  { id := "c-dup", name := "Duplicata B", type := .ACTION, description := "",
    imageUrl := "", effects := [], cost := 0, rarity := .COMMON,
    flavorText := none, educationalNote := none }

/-- Baseline in-progress session over the all-normal state. -/
def baseSession : GameSession :=
  { id := "s-1", playerId := "p-1", status := .IN_PROGRESS,
    currentState := stateNormal, hand := [insulinCard], deck := [],
    discardPile := [], currentEvent := none, score := 0, turnCount := 1,
    startTime := 0, lastSave := 0, difficulty := .medium }

/-! ### General lemmas about the engine -/

theorem HomeostaticState.get_set_same (st : HomeostaticState) (k : HomeostaticSystem)
    (b : Biomarker) : (st.set k b).get k = b := by
  cases k <;> rfl

/-- Spec-side reading of `checkGameEnd`'s victory test: every biomarker is
non-critical and lies within its (inclusive) normal range. -/
def AllStableSpec (st : HomeostaticState) : Prop :=
  ∀ b ∈ systemsList st,
    b.isCritical = false ∧ b.normalRange.1 ≤ b.currentValue ∧ b.currentValue ≤ b.normalRange.2

/-- Spec-side reading of "at least two of the three biomarkers are critical". -/
def AtLeastTwoCritical (st : HomeostaticState) : Prop :=
  (st.glucose.isCritical = true ∧ st.ph.isCritical = true)
    ∨ (st.glucose.isCritical = true ∧ st.temperature.isCritical = true)
    ∨ (st.ph.isCritical = true ∧ st.temperature.isCritical = true)

theorem allStable_flags (st : HomeostaticState)
    (h : (systemsList st).all stableBio = true) :
    st.glucose.isCritical = false ∧ st.ph.isCritical = false
      ∧ st.temperature.isCritical = false := by
  simp only [systemsList, List.all_cons, List.all_nil, Bool.and_true, Bool.and_eq_true,
    stableBio, Bool.not_eq_true'] at h
  tauto

theorem checkGameEnd_defeat_iff (s : GameSession) :
    checkGameEnd s = GameStatus.DEFEAT ↔ 2 ≤ criticalCount s.currentState := by
  simp only [checkGameEnd, criticalCount]
  split
  · rename_i h; simp [h]
  · rename_i h; split <;> simp [h]

theorem checkGameEnd_victory_iff (s : GameSession) :
    checkGameEnd s = GameStatus.VICTORY ↔
      ((systemsList s.currentState).all stableBio = true ∧ 5 < s.turnCount) := by
  simp only [checkGameEnd]
  split
  · rename_i h2
    constructor
    · intro h; exact absurd h (by simp)
    · rintro ⟨hall, -⟩
      obtain ⟨hg, hp, ht⟩ := allStable_flags _ hall
      simp [systemsList, List.filter, hg, hp, ht] at h2
  · split
    · rename_i hc
      simp only [Bool.and_eq_true, decide_eq_true_eq] at hc
      simp [hc]
    · rename_i hc
      constructor
      · intro h; exact absurd h (by simp)
      · rintro ⟨hall, h5⟩
        exact absurd (by simp [hall, h5]) hc

theorem all_stableBio_iff (st : HomeostaticState) :
    (systemsList st).all stableBio = true ↔ AllStableSpec st := by
  simp only [systemsList, AllStableSpec, List.all_cons, List.all_nil, Bool.and_true,
    Bool.and_eq_true, stableBio, Bool.not_eq_true', decide_eq_true_eq,
    List.mem_cons, List.not_mem_nil, forall_eq_or_imp, forall_eq, or_false]
  tauto

theorem two_critical_iff (st : HomeostaticState) :
    2 ≤ criticalCount st ↔ AtLeastTwoCritical st := by
  cases hg : st.glucose.isCritical <;> cases hp : st.ph.isCritical <;>
    cases ht : st.temperature.isCritical <;>
      simp [criticalCount, systemsList, List.filter, hg, hp, ht, AtLeastTwoCritical]

theorem checkGameEnd_only_state_turn (s₁ s₂ : GameSession)
    (hst : s₁.currentState = s₂.currentState) (ht : s₁.turnCount = s₂.turnCount) :
    checkGameEnd s₁ = checkGameEnd s₂ := by
  simp only [checkGameEnd, hst, ht]

theorem processTurn_status (s : GameSession) (c : Card) (now : ℤ) :
    (processTurn s c now).newSession.status
      = checkGameEnd { s with currentState := postState s c now } :=
  checkGameEnd_only_state_turn _ _ rfl rfl

/-- All-normal session at `turnCount = 5` holding the neutral card (the spec's
Scenario C configuration). -/
def stableSession5 : GameSession := { baseSession with turnCount := 5, hand := [neutralCard] }

/-- All-normal session at `turnCount = 6` holding the neutral card. -/
def stableSession6 : GameSession := { baseSession with turnCount := 6, hand := [neutralCard] }

/-- All-normal session holding the transient-excursion card. -/
def comboSession : GameSession := { baseSession with hand := [comboCard] }

/-- Session whose hand holds two distinct cards sharing one `id`. -/
def dupSession : GameSession := { baseSession with hand := [dupCardA, dupCardB] }

/-- Session whose hand holds a single card. -/
def singleSession : GameSession := { baseSession with hand := [cardX] }

/-- Session with an empty deck and a two-card discard pile (Scenario E). -/
def sessionE : GameSession := { baseSession with hand := [], discardPile := [cardX, cardY] }

/-- Session at turn 10 whose glucose is critical (value 40, flag set) while pH
and temperature are stable (Scenario F). -/
def sessionF : GameSession :=
  { baseSession with
    turnCount := 10,
    currentState :=
      { stateNormal with
        glucose := { glucoseNormal with currentValue := 40, isCritical := true } } }

/-! ### Claim theorems -/

/-- C1 (amended): `checkGameEnd` runs before the turn increment, so
`processTurn` returns VICTORY exactly when, after the card's effects, all
three biomarkers are non-critical and within their inclusive `normalRange`
and the *pre-call* `turnCount` exceeds 5.  Playing a neutral card on an
all-stable session at pre-call `turnCount = 6` therefore returns
`turnCount = 7` and VICTORY. -/
theorem processTurn_victory_iff :
    (∀ (s : GameSession) (c : Card) (now : ℤ),
        (processTurn s c now).newSession.status = GameStatus.VICTORY ↔
          (AllStableSpec (postState s c now) ∧ 5 < s.turnCount))
      ∧ (processTurn stableSession6 neutralCard 0).newSession.turnCount = 7
      ∧ (processTurn stableSession6 neutralCard 0).newSession.status = GameStatus.VICTORY := by
  refine ⟨fun s c now => ?_, rfl, ?_⟩
  · rw [processTurn_status, checkGameEnd_victory_iff, all_stableBio_iff]
  · norm_num [processTurn, applyEffects, applyEffect, stableSession6, baseSession, neutralCard,
      stateNormal, glucoseNormal, phNormal, tempNormal, HomeostaticState.get,
      HomeostaticState.set, checkGameEnd, systemsList, stableBio, isCriticalValue,
      calculateTrend, List.filter]

/-- C1 counterexample: on the all-stable session at `turnCount = 5`, playing
the neutral card (whose effect keeps every biomarker inside `normalRange`)
returns `turnCount = 6` but status IN_PROGRESS, not VICTORY: the victory test
sees the pre-increment turn count 5 and `5 > 5` fails. -/
theorem scenarioC_turn5_not_victory :
    AllStableSpec (postState stableSession5 neutralCard 0)
      ∧ (processTurn stableSession5 neutralCard 0).newSession.turnCount = 6
      ∧ (processTurn stableSession5 neutralCard 0).newSession.status = GameStatus.IN_PROGRESS
      ∧ (processTurn stableSession5 neutralCard 0).newSession.status ≠ GameStatus.VICTORY := by
  refine ⟨?_, rfl, ?_, ?_⟩
  · norm_num [AllStableSpec, postState, applyEffects, applyEffect, stableSession5, baseSession,
      neutralCard, stateNormal, glucoseNormal, phNormal, tempNormal, HomeostaticState.get,
      HomeostaticState.set, systemsList, isCriticalValue, calculateTrend]
  · norm_num [processTurn, applyEffects, applyEffect, stableSession5, baseSession, neutralCard,
      stateNormal, glucoseNormal, phNormal, tempNormal, HomeostaticState.get,
      HomeostaticState.set, checkGameEnd, systemsList, stableBio, isCriticalValue,
      calculateTrend, List.filter]
  · norm_num [processTurn, applyEffects, applyEffect, stableSession5, baseSession, neutralCard,
      stateNormal, glucoseNormal, phNormal, tempNormal, HomeostaticState.get,
      HomeostaticState.set, checkGameEnd, systemsList, stableBio, isCriticalValue,
      calculateTrend, List.filter]
    decide

/-- C3: `processTurn` returns DEFEAT exactly when at least two of the three
biomarkers carry the `isCritical` flag once the card's effects have been
applied — independent of `turnCount`, and taking precedence over the victory
test (the DEFEAT branch of `checkGameEnd` is tried first, and a state with two
critical flags can never satisfy the all-stable victory test). -/
theorem processTurn_defeat_iff (s : GameSession) (c : Card) (now : ℤ) :
    (processTurn s c now).newSession.status = GameStatus.DEFEAT ↔
      AtLeastTwoCritical (postState s c now) := by
  rw [processTurn_status, checkGameEnd_defeat_iff, two_critical_iff]

/-- C4 (amended): `checkGameEnd` is evaluated once per `processTurn`, after
the whole effect list has been applied (and with the pre-increment turn
count); only the final `isCritical` flags matter.  Concretely, the combo card
drives glucose and pH critical at its intermediate position (two critical
biomarkers after two effects) yet its last two effects restore both, and the
turn ends IN_PROGRESS, not DEFEAT. -/
theorem processTurn_checks_end_once_after_effects :
    (∀ (s : GameSession) (c : Card) (now : ℤ),
        (processTurn s c now).newSession.status
          = checkGameEnd { s with currentState := postState s c now })
      ∧ 2 ≤ criticalCount
          (applyEffects comboSession.currentState (comboCard.effects.take 2) comboCard.name 0).1
      ∧ (processTurn comboSession comboCard 0).newSession.status = GameStatus.IN_PROGRESS := by
  refine ⟨fun s c now => checkGameEnd_only_state_turn _ _ rfl rfl, ?_, ?_⟩
  · norm_num [applyEffects, applyEffect, comboSession, baseSession, comboCard, stateNormal,
      glucoseNormal, phNormal, tempNormal, HomeostaticState.get, HomeostaticState.set,
      criticalCount, systemsList, isCriticalValue, calculateTrend, List.filter, List.take]
  · norm_num [processTurn, applyEffects, applyEffect, comboSession, baseSession, comboCard,
      stateNormal, glucoseNormal, phNormal, tempNormal, HomeostaticState.get,
      HomeostaticState.set, checkGameEnd, systemsList, stableBio, isCriticalValue,
      calculateTrend, List.filter]

/-- C4 counterexample: the transient double crisis does not end the game.
After the combo card's first two effects both glucose and pH are critical, yet
`processTurn` returns IN_PROGRESS (not DEFEAT) because the termination rule is
only evaluated after the final effect, by which point both flags are clear
again. -/
theorem transient_double_crisis_no_defeat :
    2 ≤ criticalCount
        (applyEffects comboSession.currentState (comboCard.effects.take 2) comboCard.name 0).1
      ∧ (processTurn comboSession comboCard 0).newSession.status ≠ GameStatus.DEFEAT := by
  constructor
  · norm_num [applyEffects, applyEffect, comboSession, baseSession, comboCard, stateNormal,
      glucoseNormal, phNormal, tempNormal, HomeostaticState.get, HomeostaticState.set,
      criticalCount, systemsList, isCriticalValue, calculateTrend, List.filter, List.take]
  · norm_num [processTurn, applyEffects, applyEffect, comboSession, baseSession, comboCard,
      stateNormal, glucoseNormal, phNormal, tempNormal, HomeostaticState.get,
      HomeostaticState.set, checkGameEnd, systemsList, stableBio, isCriticalValue,
      calculateTrend, List.filter]
    decide

/-- C5: drawing on an empty deck with a non-empty discard pile moves the whole
discard pile into the deck in its accumulation order (no randomized shuffle),
empties the discard pile, and then draws the first card of the new deck into
the hand; the new deck is one card shorter than the original discard pile. -/
theorem drawCard_reshuffles_in_order (s : GameSession) (x : Card) (xs : List Card)
    (hdeck : s.deck = []) (hdisc : s.discardPile = x :: xs) :
    (drawCard s).2 = some x
      ∧ (drawCard s).1.deck = xs
      ∧ (drawCard s).1.hand = s.hand ++ [x]
      ∧ (drawCard s).1.discardPile = []
      ∧ (drawCard s).1.deck.length + 1 = s.discardPile.length := by
  simp [drawCard, hdeck, hdisc]

/-- C5 witness: with deck `[]` and discard pile `[cardX, cardY]`, drawing
yields deck `[cardY]`, hand extended by `cardX`, and an empty discard pile. -/
theorem drawCard_reshuffles_in_order_witness :
    (drawCard sessionE).2 = some cardX
      ∧ (drawCard sessionE).1.deck = [cardY]
      ∧ (drawCard sessionE).1.hand = sessionE.hand ++ [cardX]
      ∧ (drawCard sessionE).1.discardPile = []
      ∧ (drawCard sessionE).1.deck.length + 1 = sessionE.discardPile.length :=
  drawCard_reshuffles_in_order sessionE cardX [cardY] rfl rfl

/-- C9: drawing when both the deck and the discard pile are empty returns a
null card and the session with exactly the input's values; the embedded
operation is total, so no error can be raised. -/
theorem drawCard_both_empty (s : GameSession) (hdeck : s.deck = [])
    (hdisc : s.discardPile = []) : drawCard s = (s, none) := by
  cases s
  simp_all [drawCard]

/-- C9 witness: the baseline session has an empty deck and discard pile, and
drawing from it returns it unchanged with a null card. -/
theorem drawCard_both_empty_witness : drawCard baseSession = (baseSession, none) :=
  drawCard_both_empty baseSession rfl rfl

theorem length_filter_id_split (l : List Card) (cid : String) :
    (l.filter (fun c => c.id = cid)).length + (l.filter (fun c => c.id ≠ cid)).length
      = l.length := by
  induction l with
  | nil => rfl
  | cons c t ih =>
    simp only [decide_not] at ih ⊢
    by_cases h : c.id = cid <;> simp [List.filter_cons, h, decide_not] <;> omega

/-- C10: the hand removal of `processTurn` filters by `id`, so when the hand
holds `k ≥ 2` cards with the played card's id it removes all of them while
appending a single copy of the played card to the discard pile; the total
number of cards across the three piles drops by `k − 1`, in particular it
strictly decreases. -/
theorem processTurn_duplicate_ids (s : GameSession) (pc : Card) (now : ℤ)
    (hdup : 2 ≤ (s.hand.filter (fun c => c.id = pc.id)).length) :
    (∀ c ∈ (processTurn s pc now).newSession.hand, c.id ≠ pc.id)
      ∧ (processTurn s pc now).newSession.discardPile = s.discardPile ++ [pc]
      ∧ totalCards (processTurn s pc now).newSession
          + ((s.hand.filter (fun c => c.id = pc.id)).length - 1)
          = totalCards s
      ∧ totalCards (processTurn s pc now).newSession < totalCards s := by
  have hsplit := length_filter_id_split s.hand pc.id
  have hnew : totalCards (processTurn s pc now).newSession
      = (s.hand.filter (fun c => c.id ≠ pc.id)).length + s.deck.length
        + (s.discardPile.length + 1) := by
    simp [totalCards, processTurn]
  have htot : totalCards s = s.hand.length + s.deck.length + s.discardPile.length := rfl
  refine ⟨?_, rfl, by omega, by omega⟩
  intro c hc
  have hc' : c ∈ s.hand.filter (fun card => card.id ≠ pc.id) := hc
  simpa using (List.mem_filter.mp hc').2

/-- C10 witness: with a hand of two distinct cards sharing the id `c-dup`,
playing the first removes both, discards one copy, and shrinks the total card
count from 2 to 1. -/
theorem processTurn_duplicate_ids_witness :
    (∀ c ∈ (processTurn dupSession dupCardA 0).newSession.hand, c.id ≠ dupCardA.id)
      ∧ (processTurn dupSession dupCardA 0).newSession.discardPile
          = dupSession.discardPile ++ [dupCardA]
      ∧ totalCards (processTurn dupSession dupCardA 0).newSession
          + ((dupSession.hand.filter (fun c => c.id = dupCardA.id)).length - 1)
          = totalCards dupSession
      ∧ totalCards (processTurn dupSession dupCardA 0).newSession < totalCards dupSession :=
  processTurn_duplicate_ids dupSession dupCardA 0
    (by simp [dupSession, baseSession, dupCardA, dupCardB])


theorem filter_id_eq_nil_all_ne (l : List Card) (cid : String)
    (h : l.filter (fun c => c.id = cid) = []) :
    l.filter (fun c => c.id ≠ cid) = l := by
  have hall : ∀ a ∈ l, ¬(a.id = cid) := by simpa using h
  simpa using hall

theorem multiset_filter_id_singleton (pc : Card) (l : List Card)
    (h : l.filter (fun c => c.id = pc.id) = [pc]) :
    ((l.filter (fun c => c.id ≠ pc.id) : List Card) : Multiset Card) + {pc}
      = (l : Multiset Card) := by
  have hneg : l.filter (fun c => !decide (c.id ≠ pc.id)) = [pc] := by
    calc l.filter (fun c => !decide (c.id ≠ pc.id))
        = l.filter (fun c => c.id = pc.id) := by
          congr 1
          funext c
          simp [decide_not]
    _ = [pc] := h
  have hperm : List.Perm (l.filter (fun c => c.id ≠ pc.id) ++ [pc]) l := by
    have hp := List.filter_append_perm (fun c => decide (c.id ≠ pc.id)) l
    rwa [hneg] at hp
  calc ((l.filter (fun c => c.id ≠ pc.id) : List Card) : Multiset Card) + {pc}
      = ((l.filter (fun c => c.id ≠ pc.id) ++ [pc] : List Card) : Multiset Card) := by
        rw [← Multiset.coe_singleton pc, Multiset.coe_add]
  _ = (l : Multiset Card) := Multiset.coe_eq_coe.mpr hperm

/-- C8 (amended): the card economy is conserved by `drawCard` unconditionally,
and by `processTurn` whenever the hand's cards with the played card's `id` are
exactly one occurrence of the played card itself (the filter-by-id removal
then moves that one card from hand to discard).  Disjointness of the piles and
uniqueness of ids are caller-maintained conventions the engine does not
enforce, and with duplicated ids `processTurn` loses cards (see C10). -/
theorem card_union_conservation :
    (∀ s : GameSession, cardMultiset (drawCard s).1 = cardMultiset s)
      ∧ (∀ (s : GameSession) (pc : Card) (now : ℤ),
          s.hand.filter (fun c => c.id = pc.id) = [pc] →
          cardMultiset (processTurn s pc now).newSession = cardMultiset s) := by
  constructor
  · intro s
    rcases hdeck : s.deck with _ | ⟨d, ds⟩
    · rcases hdisc : s.discardPile with _ | ⟨x, xs⟩
      · simp [drawCard, cardMultiset, hdeck, hdisc]
      · simp [drawCard, cardMultiset, hdeck, hdisc, Multiset.coe_add, List.append_assoc]
    · simp [drawCard, cardMultiset, hdeck, Multiset.coe_add, List.append_assoc]
  · intro s pc now h
    have hm := multiset_filter_id_singleton pc s.hand h
    show ((s.hand.filter (fun c => c.id ≠ pc.id) : List Card) : Multiset Card)
        + (s.deck : Multiset Card) + ((s.discardPile ++ [pc] : List Card) : Multiset Card)
        = cardMultiset s
    rw [← Multiset.coe_add, Multiset.coe_singleton, cardMultiset, ← hm]
    abel

/-- C8 witness: a hand holding exactly one card with the played id conserves
the multiset union of the three piles through `processTurn`. -/
theorem card_union_conservation_witness :
    cardMultiset (processTurn singleSession cardX 0).newSession = cardMultiset singleSession :=
  card_union_conservation.2 singleSession cardX 0 (by simp [singleSession, baseSession, cardX])

/-- C8 counterexample: with two distinct cards sharing one `id` in hand,
playing one of them does not preserve the multiset union of hand, deck and
discard pile (two cards are replaced by one). -/
theorem card_union_not_conserved_dup :
    cardMultiset (processTurn dupSession dupCardA 0).newSession ≠ cardMultiset dupSession := by
  intro hEq
  have hcard := congrArg Multiset.card hEq
  simp [cardMultiset, processTurn, dupSession, baseSession, dupCardA, dupCardB] at hcard

/-- C2 (code bug): the statement `let newSession = { ...session }` is a shallow copy, so the
nested `HomeostaticState` object is shared between the input and the copy, and
the effect loop's `newSession.currentState[systemKey] = ...` writes land in
the input session as well.  At the failing input (all-normal session, insulin
card taking glucose from 90 to 80) the input session's glucose reads 80 after
the call, the input object no longer holds its pre-call values, and the
returned session's `currentState` is exactly the input's mutated state rather
than a fresh object. -/
theorem processTurn_mutates_input :
    (processTurn baseSession insulinCard 1).inputAfter.currentState.glucose.currentValue = 80
      ∧ baseSession.currentState.glucose.currentValue = 90
      ∧ (processTurn baseSession insulinCard 1).inputAfter ≠ baseSession
      ∧ (processTurn baseSession insulinCard 1).newSession.currentState
          = (processTurn baseSession insulinCard 1).inputAfter.currentState := by
  refine ⟨?_, rfl, ?_, rfl⟩
  · norm_num [processTurn, applyEffects, applyEffect, baseSession, insulinCard, stateNormal,
      glucoseNormal, HomeostaticState.get, HomeostaticState.set]
  · intro hEq
    have hval := congrArg (fun s => s.currentState.glucose.currentValue) hEq
    norm_num [processTurn, applyEffects, applyEffect, baseSession, insulinCard, stateNormal,
      glucoseNormal, HomeostaticState.get, HomeostaticState.set] at hval

/-- C6: `getScore` computes exactly
`max(0, 1000 − 10·turnCount − 50·criticalCount + 100·stableCount)` over the
three biomarkers (critical by flag, stable by inclusive `normalRange`
membership); as a pure function of the session it is deterministic, and at
turnCount 10 with one critical and two stable biomarkers it returns 1050. -/
theorem getScore_formula :
    (∀ s : GameSession,
        getScore s = max 0 (1000 - 10 * (s.turnCount : ℤ)
          - 50 * (criticalCount s.currentState : ℤ)
          + 100 * (stableCount s.currentState : ℤ)))
      ∧ getScore sessionF = 1050 := by
  constructor
  · intro s
    simp only [getScore, criticalCount, stableCount]
    congr 1
    ring
  · norm_num [getScore, sessionF, baseSession, stateNormal, glucoseNormal, phNormal,
      tempNormal, systemsList, List.filter]

/-- C7: after an effect application inside `processTurn`, the target
biomarker's `isCritical` flag is true exactly when the new value lies strictly
outside `criticalRange`; whenever the range is well-formed (low ≤ high), a new
value exactly equal to either critical bound leaves the flag false. -/
theorem applyEffect_isCritical_iff (st : HomeostaticState) (e : CardEffect)
    (name : String) (now : ℤ) :
    ((((applyEffect st e name now).1.get e.targetSystem).isCritical = true) ↔
        ((st.get e.targetSystem).currentValue + e.value
            < (st.get e.targetSystem).criticalRange.1
          ∨ (st.get e.targetSystem).criticalRange.2
              < (st.get e.targetSystem).currentValue + e.value))
      ∧ ((st.get e.targetSystem).criticalRange.1 ≤ (st.get e.targetSystem).criticalRange.2 →
          ((st.get e.targetSystem).currentValue + e.value
              = (st.get e.targetSystem).criticalRange.1
            ∨ (st.get e.targetSystem).currentValue + e.value
                = (st.get e.targetSystem).criticalRange.2) →
          ((applyEffect st e name now).1.get e.targetSystem).isCritical = false) := by
  have hb : (applyEffect st e name now).1.get e.targetSystem
      = { st.get e.targetSystem with
          currentValue := (st.get e.targetSystem).currentValue + e.value,
          isCritical := isCriticalValue (st.get e.targetSystem)
            ((st.get e.targetSystem).currentValue + e.value),
          trend := calculateTrend (st.get e.targetSystem).currentValue
            ((st.get e.targetSystem).currentValue + e.value),
          lastUpdate := now } := HomeostaticState.get_set_same _ _ _
  constructor
  · rw [hb]
    simp [isCriticalValue]
  · intro hcr heq
    rw [hb]
    simp only [isCriticalValue, Bool.or_eq_false_iff, decide_eq_false_iff_not, not_lt]
    rcases heq with h | h <;> exact ⟨by linarith, by linarith⟩

/-- Effect whose application lands glucose exactly on its critical low bound. -/
def boundaryEffect : CardEffect :=
  { targetSystem := .glucose, value := -40, duration := none,
    type := .INSTANT, condition := none }

/-- C7 witness: glucose 90 − 40 = 50 is exactly the critical low bound and is
classified non-critical. -/
theorem applyEffect_isCritical_iff_witness :
    ((applyEffect stateNormal boundaryEffect "w" 0).1.get boundaryEffect.targetSystem).isCritical
      = false :=
  (applyEffect_isCritical_iff stateNormal boundaryEffect "w" 0).2
    (by norm_num [stateNormal, glucoseNormal, boundaryEffect, HomeostaticState.get])
    (Or.inl (by norm_num [stateNormal, glucoseNormal, boundaryEffect, HomeostaticState.get]))
